import Mathlib

/-!
Shallow embedding of the AIJack federated-averaging client
(`src/aijack/collaborative/fedavg/client.py`) and the Paillier tensor wrapper
(`src/aijack/defense/paillier/torch_wrapper.py`), together with theorems that
settle the spec claims about them.

Modelling conventions:
* A parameter tensor is a flat list of rationals (`Tensor`); elementwise torch
  and numpy arithmetic becomes `List.map` / `List.zipWith`.
* A Python method that mutates `self` becomes a function returning the updated
  record; a method that raises becomes a function into `Except String`.
* A deep copy of a value (`copy.deepcopy`) is the value itself, since the
  embedding is value-semantic.
-/

namespace AIJack

/-- A tensor, modelled as a flat list of rationals; elementwise operations act
position by position exactly as torch broadcasting does on aligned shapes. -/
abbrev Tensor := List ℚ

/-- Elementwise tensor subtraction (torch `a - b` on aligned shapes). -/
def Tensor.sub (a b : Tensor) : Tensor := List.zipWith (fun x y => x - y) a b

/-- Elementwise division of a tensor by a scalar (torch `a / s`). -/
def Tensor.divScalar (a : Tensor) (s : ℚ) : Tensor := a.map (fun x => x / s)

/-- Modelled from the spec: the optimizer adapters `SGDFLOptimizer` and
`AdamFLOptimizer` are repository code imported by `client.py` but not under
`src/`; §4.1 specifies only their contract — constructed with the parameter
sequence, a learning rate and hyperparameters, exposing `step(update)` which
mutates each parameter in place from the positionally aligned update entry.
The adapter is modelled by its algorithm kind and learning rate. -/
inductive FLOptimizer where
  | sgd (lr : ℚ)
  | adam (lr : ℚ)
deriving DecidableEq

/-- Modelled from the spec: `step(update)` applies an in-place elementwise
update of each parameter from the aligned global-gradient entry; for the
SGD-style adapter with its default hyperparameters this is
`param := param - lr * update`.  The spec places the concrete Adam arithmetic
out of scope (§1), and no claim below depends on the adapter arithmetic, so the
Adam-style adapter is modelled by the same aligned in-place rule. -/
def FLOptimizer.step (o : FLOptimizer) (params update : List Tensor) : List Tensor :=
  match o with
  | .sgd lr => List.zipWith (fun p u => List.zipWith (fun x g => x - lr * g) p u) params update
  | .adam lr => List.zipWith (fun p u => List.zipWith (fun x g => x - lr * g) p u) params update

/-- State of a `FedAvgClient` (client.py lines 24-50).  The local model is
represented by its ordered parameter sequence `params` (`model.parameters()`);
`optimizer_for_gloal_grad` (source spelling) is `none` both when the attribute
was set to Python `None` (optimizer type string `"none"`) and when
`server_side_update` is true, in which case the source never sets nor reads the
attribute. -/
structure FedAvgClient where
  user_id : Nat
  params : List Tensor
  lr : ℚ
  send_gradient : Bool
  server_side_update : Bool
  optimizer_for_gloal_grad : Option FLOptimizer
  prev_parameters : List Tensor
  initialized : Bool
deriving DecidableEq

/-- `_setup_optimizer_for_global_grad` (client.py lines 52-66): dispatch on the
optimizer type string; an unrecognized string raises `NotImplementedError` with
the source's message naming the allowed set. -/
def _setup_optimizer_for_global_grad (optimizer_type : String) (lr : ℚ) :
    Except String (Option FLOptimizer) :=
  if optimizer_type = "sgd" then Except.ok (some (FLOptimizer.sgd lr))
  else if optimizer_type = "adam" then Except.ok (some (FLOptimizer.adam lr))
  else if optimizer_type = "none" then Except.ok none
  else Except.error (optimizer_type ++ " is not supported. You can specify `sgd`, `adam`, or `none`.")

/-- `FedAvgClient.__init__` (client.py lines 24-50): store the configuration,
set up the optimizer adapter only when `server_side_update` is false (an
unrecognized type raises there, before anything else happens — in particular no
model parameter is ever written by construction), snapshot every parameter
(`copy.deepcopy`), and start uninitialized. -/
def FedAvgClient.init (params : List Tensor) (user_id : Nat) (lr : ℚ)
    (send_gradient : Bool) (optimizer_type_for_global_grad : String)
    (server_side_update : Bool) : Except String FedAvgClient :=
  match (if server_side_update then Except.ok none
         else _setup_optimizer_for_global_grad optimizer_type_for_global_grad lr :
         Except String (Option FLOptimizer)) with
  | Except.error e => Except.error e
  | Except.ok opt =>
      Except.ok
        { user_id := user_id
          params := params
          lr := lr
          send_gradient := send_gradient
          server_side_update := server_side_update
          optimizer_for_gloal_grad := opt
          prev_parameters := params
          initialized := false }

/-- `upload_parameters` (client.py lines 75-77): return `model.state_dict()`,
i.e. the current parameter sequence, read-only. -/
def FedAvgClient.upload_parameters (c : FedAvgClient) : List Tensor :=
  c.params

/-- `upload_gradients` (client.py lines 79-84): build a fresh list with
`(prev_param - param) / lr` for each zipped pair.  The pair's second component
is the post-call client state: the body only reads `self`, no field is
assigned, so the state passes through unchanged. -/
def FedAvgClient.upload_gradients (c : FedAvgClient) : List Tensor × FedAvgClient :=
  (List.zipWith (fun param prev_param => Tensor.divScalar (Tensor.sub prev_param param) c.lr)
     c.params c.prev_parameters,
   c)

/-- `upload` (client.py lines 68-73): choose the encoding by `send_gradient`. -/
def FedAvgClient.upload (c : FedAvgClient) : List Tensor :=
  if c.send_gradient then (FedAvgClient.upload_gradients c).1
  else FedAvgClient.upload_parameters c

/-- `revert` (client.py lines 86-90) exactly as written in the source: the loop
body `param = prev_param` rebinds the Python loop variable and assigns to no
model parameter, so the client state is returned unchanged.  The rebinding is
kept as the discarded `_param` fold below. -/
def FedAvgClient.revert (c : FedAvgClient) : FedAvgClient :=
  let _param : Tensor :=
    (List.zip c.params c.prev_parameters).foldl (fun _param pp => pp.2) []
  c

/-- Modelled from the spec: `model.load_state_dict` belongs to the external
`LocalModel` entity (§3, §6) — it bulk-overwrites all parameters from a full
state.  A state whose length disagrees with the parameter sequence is rejected
by the external library; the model here rejects it atomically, leaving the
client unchanged (the external library's exact partial-write behavior on
mismatch is outside this model). -/
def FedAvgClient.load_state_dict (c : FedAvgClient) (state : List Tensor) :
    Except String FedAvgClient :=
  if state.length = c.params.length then Except.ok { c with params := state }
  else Except.error "load_state_dict: state does not match the parameter sequence"

/-- The branch of `download` (client.py lines 94-100): either load the received
state as the full model state, or revert and then step the optimizer adapter
with the received global gradients; stepping through a `None` adapter raises an
`AttributeError`. -/
def FedAvgClient.downloadBranch (c : FedAvgClient) (new_global_model : List Tensor) :
    Except String FedAvgClient :=
  if c.server_side_update || !c.initialized then
    FedAvgClient.load_state_dict c new_global_model
  else
    match (FedAvgClient.revert c).optimizer_for_gloal_grad with
    | none => Except.error "AttributeError: NoneType object has no attribute step"
    | some opt =>
        Except.ok { FedAvgClient.revert c with
          params := FLOptimizer.step opt (FedAvgClient.revert c).params new_global_model }

/-- The tail of `download` (client.py lines 102-107): mark the client
initialized and re-snapshot every model parameter (`copy.deepcopy`), discarding
the old snapshot. -/
def FedAvgClient.downloadFinish (c1 : FedAvgClient) : FedAvgClient :=
  let c2 := if !c1.initialized then { c1 with initialized := true } else c1
  { c2 with prev_parameters := c2.params }

/-- `download` (client.py lines 92-107): the branch, then — only when no
exception escaped the branch — the initialization flag and the re-snapshot. -/
def FedAvgClient.download (c : FedAvgClient) (new_global_model : List Tensor) :
    Except String FedAvgClient :=
  match FedAvgClient.downloadBranch c new_global_model with
  | Except.error e => Except.error e
  | Except.ok c1 => Except.ok (FedAvgClient.downloadFinish c1)

/-- State of an `MPIFedAVGClient` (client.py lines 110-121).  The `comm`
channel is external (§6) and is modelled at the call sites: the sent payload
becomes a return value and the received payload an argument.  `gradients` is
the attribute first created by `upload_gradient`, hence optional. -/
structure MPIFedAVGClient where
  user_id : Nat
  params : List Tensor
  lr : ℚ
  prev_parameters : List Tensor
  gradients : Option (List Tensor)
deriving DecidableEq

/-- `MPIFedAVGClient.__init__` (client.py lines 113-121): store configuration
and snapshot every parameter. -/
def MPIFedAVGClient.init (params : List Tensor) (user_id : Nat) (lr : ℚ) :
    MPIFedAVGClient :=
  { user_id := user_id, params := params, lr := lr,
    prev_parameters := params, gradients := none }

/-- `upload_gradient` (client.py lines 126-130): build the gradient list
`(prev_param - param) / lr` pairwise, store it on `self.gradients`, and send it
(`comm.send(..., tag=GRADIENTS_TAG)` — the sent payload is the second
component).  Neither `params` nor `prev_parameters` is written. -/
def MPIFedAVGClient.upload_gradient (m : MPIFedAVGClient) :
    MPIFedAVGClient × List Tensor :=
  let gs := List.zipWith
    (fun param prev_param => Tensor.divScalar (Tensor.sub prev_param param) m.lr)
    m.params m.prev_parameters
  ({ m with gradients := some gs }, gs)

/-- `MPIFedAVGClient.download` (client.py lines 132-135): receive a parameter
list (`comm.recv(tag=PARAMETERS_TAG)`, modelled as the argument) and overwrite
`params.data` elementwise over the zip of the two sequences — positions beyond
the shorter sequence keep their old value, and `prev_parameters` is not
touched. -/
def MPIFedAVGClient.download (m : MPIFedAVGClient) (new_parameters : List Tensor) :
    MPIFedAVGClient :=
  { m with params :=
      List.zipWith (fun _params new_params => new_params) m.params new_parameters
        ++ m.params.drop new_parameters.length }

/-- `PaillierTensor` (torch_wrapper.py lines 20-27): a wrapper over a numpy
array of ciphertexts.  A ciphertext of the additively homomorphic cryptosystem
is modelled by the plaintext rational it encrypts: ciphertext addition is `+`
and ciphertext-by-plaintext scaling is `*`, the semantics guaranteed by the
homomorphism; the array is flat, its length standing for the numpy shape. -/
structure PaillierTensor where
  _paillier_np_array : List ℚ
deriving DecidableEq

/-- The second operand accepted by the arithmetic methods of
`torch_wrapper.py`: a Python `int`/`float` scalar, a `torch.Tensor` (flat
view), another `PaillierTensor`, or any other Python value, identified only by
its type name, which every method rejects. -/
inductive Operand where
  | scalar (x : ℚ)
  | tensor (t : List ℚ)
  | paillier (p : PaillierTensor)
  | unsupported (tyName : String)
deriving DecidableEq

/-- Modelled from numpy (external library): elementwise combination of two
arrays.  Aligned shapes combine position by position; the general numpy
broadcast rule is modelled by its aligned case, any other pair is rejected with
numpy's broadcast error. -/
def npCombine (f : ℚ → ℚ → ℚ) (a b : List ℚ) : Except String (List ℚ) :=
  if a.length = b.length then Except.ok (List.zipWith f a b)
  else Except.error "operands could not be broadcast together"

/-- `PaillierTensor.add` (torch_wrapper.py lines 56-63): the underlying array
plus the operand — elementwise scalar addition for `int`/`float`, elementwise
array addition against `other.numpy()` for `torch.Tensor`/`PaillierTensor`,
`NotImplementedError` otherwise.  A new wrapper is built around the fresh
array; no statement writes to `input` or `other`. -/
def PaillierTensor.add (input : PaillierTensor) (other : Operand) :
    Except String PaillierTensor :=
  match other with
  | Operand.scalar x =>
      Except.ok ⟨input._paillier_np_array.map (fun c => c + x)⟩
  | Operand.tensor t =>
      (npCombine (fun c v => c + v) input._paillier_np_array t).map PaillierTensor.mk
  | Operand.paillier p =>
      (npCombine (fun c v => c + v) input._paillier_np_array p._paillier_np_array).map
        PaillierTensor.mk
  | Operand.unsupported ty => Except.error (ty ++ " is not supported.")

/-- `PaillierTensor.sub` (torch_wrapper.py lines 65-72): addition of the
negated operand — the underlying array plus `-1 * other` (resp.
`-1 * other.numpy()`); no native ciphertext subtraction is used. -/
def PaillierTensor.sub (input : PaillierTensor) (other : Operand) :
    Except String PaillierTensor :=
  match other with
  | Operand.scalar x =>
      Except.ok ⟨input._paillier_np_array.map (fun c => c + (-1 * x))⟩
  | Operand.tensor t =>
      (npCombine (fun c v => c + v) input._paillier_np_array
        (t.map (fun v => -1 * v))).map PaillierTensor.mk
  | Operand.paillier p =>
      (npCombine (fun c v => c + v) input._paillier_np_array
        (p._paillier_np_array.map (fun v => -1 * v))).map PaillierTensor.mk
  | Operand.unsupported ty => Except.error (ty ++ " is not supported.")

/-- `PaillierTensor.mul` (torch_wrapper.py lines 74-81): the underlying array
times the operand, same dispatch as `add`. -/
def PaillierTensor.mul (input : PaillierTensor) (other : Operand) :
    Except String PaillierTensor :=
  match other with
  | Operand.scalar x =>
      Except.ok ⟨input._paillier_np_array.map (fun c => c * x)⟩
  | Operand.tensor t =>
      (npCombine (fun c v => c * v) input._paillier_np_array t).map PaillierTensor.mk
  | Operand.paillier p =>
      (npCombine (fun c v => c * v) input._paillier_np_array p._paillier_np_array).map
        PaillierTensor.mk
  | Operand.unsupported ty => Except.error (ty ++ " is not supported.")

/-- Call-level view of `add`: along with the result, the post-call states of
both operands.  The source body only reads `input._paillier_np_array` and
`other`; no statement assigns to either, so both pass through unchanged. -/
def PaillierTensor.addCall (input : PaillierTensor) (other : Operand) :
    Except String (PaillierTensor × PaillierTensor × Operand) :=
  (PaillierTensor.add input other).map (fun r => (r, input, other))

/-- Call-level view of `sub`, as for `addCall`. -/
def PaillierTensor.subCall (input : PaillierTensor) (other : Operand) :
    Except String (PaillierTensor × PaillierTensor × Operand) :=
  (PaillierTensor.sub input other).map (fun r => (r, input, other))

/-- Call-level view of `mul`, as for `addCall`. -/
def PaillierTensor.mulCall (input : PaillierTensor) (other : Operand) :
    Except String (PaillierTensor × PaillierTensor × Operand) :=
  (PaillierTensor.mul input other).map (fun r => (r, input, other))

/-- Statement of the spec phrase in claim C8, following the spec words: the
operand scaled by −1 — plain scalar negation for a scalar, elementwise `-1 * v`
for a plaintext array, the homomorphic scaling by −1 for an encrypted array; an
unsupported operand stays unsupported. -/
def Operand.scaledByNegOne : Operand → Operand
  | Operand.scalar x => Operand.scalar (-1 * x)
  | Operand.tensor t => Operand.tensor (t.map (fun v => -1 * v))
  | Operand.paillier p => Operand.paillier ⟨p._paillier_np_array.map (fun v => -1 * v)⟩
  | Operand.unsupported ty => Operand.unsupported ty

/-- Shape compatibility of an operand with a wrapper, per the aligned-shape
model of numpy broadcasting: scalars always combine, arrays must match the
wrapper's length, an unsupported operand never combines. -/
def Operand.compatWith (b : Operand) (a : PaillierTensor) : Bool :=
  match b with
  | Operand.scalar _ => true
  | Operand.tensor t => a._paillier_np_array.length == t.length
  | Operand.paillier p => a._paillier_np_array.length == p._paillier_np_array.length
  | Operand.unsupported _ => false

/-! ## Helper lemmas about `download` -/

lemma downloadFinish_prev_eq_params (c1 : FedAvgClient) :
    (FedAvgClient.downloadFinish c1).prev_parameters =
      (FedAvgClient.downloadFinish c1).params := by
  obtain ⟨uid, ps, lr, sg, ssu, opt, prev, ini⟩ := c1
  cases ini <;> rfl

lemma downloadFinish_initialized (c1 : FedAvgClient) :
    (FedAvgClient.downloadFinish c1).initialized = true := by
  obtain ⟨uid, ps, lr, sg, ssu, opt, prev, ini⟩ := c1
  cases ini <;> rfl

lemma downloadFinish_params (c1 : FedAvgClient) :
    (FedAvgClient.downloadFinish c1).params = c1.params := by
  obtain ⟨uid, ps, lr, sg, ssu, opt, prev, ini⟩ := c1
  cases ini <;> rfl

lemma downloadFinish_config (c1 : FedAvgClient) :
    (FedAvgClient.downloadFinish c1).server_side_update = c1.server_side_update ∧
      (FedAvgClient.downloadFinish c1).optimizer_for_gloal_grad =
        c1.optimizer_for_gloal_grad := by
  obtain ⟨uid, ps, lr, sg, ssu, opt, prev, ini⟩ := c1
  cases ini <;> exact ⟨rfl, rfl⟩

lemma downloadBranch_uninit {c : FedAvgClient} {g : List Tensor} {c1 : FedAvgClient}
    (h : c.initialized = false) (hb : FedAvgClient.downloadBranch c g = Except.ok c1) :
    c1.params = g := by
  unfold FedAvgClient.downloadBranch at hb
  rw [h] at hb
  simp only [Bool.not_false, Bool.or_true, if_true] at hb
  unfold FedAvgClient.load_state_dict at hb
  split at hb
  · cases hb; rfl
  · cases hb

lemma downloadBranch_server {c : FedAvgClient} {g : List Tensor} {c1 : FedAvgClient}
    (h : c.server_side_update = true) (hb : FedAvgClient.downloadBranch c g = Except.ok c1) :
    c1.params = g := by
  unfold FedAvgClient.downloadBranch at hb
  rw [h] at hb
  simp only [Bool.true_or, if_true] at hb
  unfold FedAvgClient.load_state_dict at hb
  split at hb
  · cases hb; rfl
  · cases hb

lemma downloadBranch_config {c : FedAvgClient} {g : List Tensor} {c1 : FedAvgClient}
    (hb : FedAvgClient.downloadBranch c g = Except.ok c1) :
    c1.server_side_update = c.server_side_update ∧
      c1.optimizer_for_gloal_grad = c.optimizer_for_gloal_grad := by
  unfold FedAvgClient.downloadBranch at hb
  split at hb
  · unfold FedAvgClient.load_state_dict at hb
    split at hb
    · cases hb; exact ⟨rfl, rfl⟩
    · cases hb
  · unfold FedAvgClient.revert at hb
    split at hb
    · cases hb
    · cases hb; exact ⟨rfl, rfl⟩

lemma download_ok_iff {c : FedAvgClient} {g : List Tensor} {c' : FedAvgClient} :
    FedAvgClient.download c g = Except.ok c' ↔
      ∃ c1, FedAvgClient.downloadBranch c g = Except.ok c1 ∧
        c' = FedAvgClient.downloadFinish c1 := by
  unfold FedAvgClient.download
  constructor
  · intro h
    split at h
    · cases h
    · next c1 hb => cases h; exact ⟨c1, hb, rfl⟩
  · rintro ⟨c1, hb, rfl⟩
    rw [hb]

/-! ## Claim theorems -/

/-- C3: for every freshly constructed `FedAvgClient` (state `Uninitialized`,
i.e. `initialized = false`), the first `download(global_state)` that completes
loads `global_state` directly into the model, overwriting every parameter,
regardless of `server_side_update`, and transitions the client to `Ready`
(`initialized = true`); moreover every completed `download` leaves the client
`Ready`, so the client never returns to `Uninitialized`. -/
theorem claim_C3 :
    (∀ (c : FedAvgClient) (g : List Tensor) (c' : FedAvgClient),
        c.initialized = false → FedAvgClient.download c g = Except.ok c' →
        c'.params = g ∧ c'.initialized = true) ∧
    (∀ (c : FedAvgClient) (g : List Tensor) (c' : FedAvgClient),
        FedAvgClient.download c g = Except.ok c' → c'.initialized = true) := by
  constructor
  · intro c g c' h hdl
    obtain ⟨c1, hb, rfl⟩ := download_ok_iff.mp hdl
    refine ⟨?_, downloadFinish_initialized c1⟩
    rw [downloadFinish_params c1]
    exact downloadBranch_uninit h hb
  · intro c g c' hdl
    obtain ⟨c1, hb, rfl⟩ := download_ok_iff.mp hdl
    exact downloadFinish_initialized c1

/-- C5: every completed `FedAvgClient.download` ends with the retained snapshot
equal to a fresh copy of the model's current parameters, while
`MPIFedAVGClient.download` leaves `prev_parameters` completely unchanged. -/
theorem claim_C5 :
    (∀ (c : FedAvgClient) (g : List Tensor) (c' : FedAvgClient),
        FedAvgClient.download c g = Except.ok c' →
        c'.prev_parameters = c'.params) ∧
    (∀ (m : MPIFedAVGClient) (r : List Tensor),
        (MPIFedAVGClient.download m r).prev_parameters = m.prev_parameters) := by
  constructor
  · intro c g c' hdl
    obtain ⟨c1, _, rfl⟩ := download_ok_iff.mp hdl
    exact downloadFinish_prev_eq_params c1
  · intro m r
    rfl

/-- C7: in server-applied-update mode, a completed `download(S)` followed by
`upload_parameters()` returns exactly `S`. -/
theorem claim_C7 (c : FedAvgClient) (S : List Tensor) (c' : FedAvgClient)
    (h : c.server_side_update = true)
    (hdl : FedAvgClient.download c S = Except.ok c') :
    FedAvgClient.upload_parameters c' = S := by
  obtain ⟨c1, hb, rfl⟩ := download_ok_iff.mp hdl
  show (FedAvgClient.downloadFinish c1).params = S
  rw [downloadFinish_params c1]
  exact downloadBranch_server h hb

/-- C10: `optimizer_type_for_global_grad = "none"` with
`server_side_update = False` is an accepted construction value that leaves the
optimizer adapter as Python `None`; `download` preserves `server_side_update`
and the adapter; and on a client in that configuration that is already
initialized, every `download` dereferences the `None` adapter and raises an
`AttributeError` — so the client-applied-update path is only total for the
`"sgd"` and `"adam"` adapters. -/
theorem claim_C10 :
    (∀ (ps : List Tensor) (uid : Nat) (lr : ℚ) (sg : Bool),
        ∃ c, FedAvgClient.init ps uid lr sg "none" false = Except.ok c ∧
          c.optimizer_for_gloal_grad = none ∧ c.server_side_update = false) ∧
    (∀ (c : FedAvgClient) (g : List Tensor) (c' : FedAvgClient),
        FedAvgClient.download c g = Except.ok c' →
        c'.server_side_update = c.server_side_update ∧
          c'.optimizer_for_gloal_grad = c.optimizer_for_gloal_grad) ∧
    (∀ (c : FedAvgClient) (g : List Tensor),
        c.server_side_update = false → c.initialized = true →
        c.optimizer_for_gloal_grad = none →
        FedAvgClient.download c g =
          Except.error "AttributeError: NoneType object has no attribute step") := by
  refine ⟨?_, ?_, ?_⟩
  · intro ps uid lr sg
    exact ⟨_, rfl, rfl, rfl⟩
  · intro c g c' hdl
    obtain ⟨c1, hb, rfl⟩ := download_ok_iff.mp hdl
    obtain ⟨h1, h2⟩ := downloadBranch_config hb
    obtain ⟨h3, h4⟩ := downloadFinish_config c1
    exact ⟨h3.trans h1, h4.trans h2⟩
  · intro c g hssu hini hopt
    unfold FedAvgClient.download FedAvgClient.downloadBranch FedAvgClient.revert
    rw [hssu, hini, hopt]
    rfl

/-- The concrete client on which claim C1 fails: client-applied-update mode,
already initialized, one parameter tensor currently `[1]` whose retained
snapshot is `[0]` (i.e. local training moved the parameter from 0 to 1). -/
def c1bugClient : FedAvgClient :=
  { user_id := 0, params := [[1]], lr := 1, send_gradient := true,
    server_side_update := false,
    optimizer_for_gloal_grad := some (FLOptimizer.sgd 1),
    prev_parameters := [[0]], initialized := true }

/-- C1, evaluated at the failing input: the source's `revert` loop body
`param = prev_param` rebinds the Python loop variable and writes to no model
parameter, so `revert` leaves the drifted parameter at `[1]` instead of
assigning it back to its snapshot value `[0]`, and `download` with the zero
global gradient `[0]` then applies the optimizer step to the unreverted
parameters, returning `[1]` where the claimed revert-then-step sequence would
return `[0]`.  This contradicts both the claim and `revert`'s own docstring. -/
theorem claim_C1_code_eval :
    (FedAvgClient.revert c1bugClient).params = [[(1 : ℚ)]] ∧
    (FedAvgClient.revert c1bugClient).params ≠ c1bugClient.prev_parameters ∧
    c1bugClient.prev_parameters = [[(0 : ℚ)]] ∧
    FedAvgClient.download c1bugClient [[0]] =
      Except.ok { c1bugClient with params := [[1]], prev_parameters := [[1]] } := by
  refine ⟨rfl, by decide, rfl, ?_⟩
  norm_num [c1bugClient, FedAvgClient.download, FedAvgClient.downloadBranch,
    FedAvgClient.revert, FLOptimizer.step, FedAvgClient.downloadFinish]

/-- C4: in both client variants, for every position `i` of positionally
aligned parameter and snapshot sequences, the uploaded gradient is exactly
`(snapshot_i − current_i) / lr`, and the call leaves both the model parameters
and the retained snapshot unchanged (the single-process body writes no field
at all; the message-passing body writes only the fresh `gradients`
attribute). -/
theorem claim_C4 :
    (∀ (c : FedAvgClient) (i : Nat) (hi : i < c.params.length)
        (hi' : i < c.prev_parameters.length),
        ((FedAvgClient.upload_gradients c).1)[i]? =
          some (Tensor.divScalar
            (Tensor.sub (c.prev_parameters.get ⟨i, hi'⟩) (c.params.get ⟨i, hi⟩)) c.lr) ∧
        (FedAvgClient.upload_gradients c).2 = c) ∧
    (∀ (m : MPIFedAVGClient) (i : Nat) (hi : i < m.params.length)
        (hi' : i < m.prev_parameters.length),
        ((MPIFedAVGClient.upload_gradient m).2)[i]? =
          some (Tensor.divScalar
            (Tensor.sub (m.prev_parameters.get ⟨i, hi'⟩) (m.params.get ⟨i, hi⟩)) m.lr) ∧
        (MPIFedAVGClient.upload_gradient m).1.params = m.params ∧
        (MPIFedAVGClient.upload_gradient m).1.prev_parameters = m.prev_parameters) := by
  constructor
  · intro c i hi hi'
    refine ⟨?_, rfl⟩
    show (List.zipWith _ c.params c.prev_parameters)[i]? = _
    rw [List.getElem?_zipWith', List.getElem?_eq_getElem hi, List.getElem?_eq_getElem hi']
    simp [List.get_eq_getElem]
  · intro m i hi hi'
    refine ⟨?_, rfl, rfl⟩
    show (List.zipWith _ m.params m.prev_parameters)[i]? = _
    rw [List.getElem?_zipWith', List.getElem?_eq_getElem hi, List.getElem?_eq_getElem hi']
    simp [List.get_eq_getElem]

/-- C6: constructing with `server_side_update = False` succeeds exactly for the
optimizer types `"sgd"`, `"adam"` and `"none"`; any other type fails
immediately with the `NotImplementedError` naming the allowed set (the
constructor mutates no model parameter — on failure no client is produced at
all); and with `server_side_update = True` construction always succeeds, the
optimizer type never being checked. -/
theorem claim_C6 (ps : List Tensor) (uid : Nat) (lr : ℚ) (sg : Bool) (t : String) :
    ((∃ c, FedAvgClient.init ps uid lr sg t false = Except.ok c) ↔
      (t = "sgd" ∨ t = "adam" ∨ t = "none")) ∧
    (t ≠ "sgd" → t ≠ "adam" → t ≠ "none" →
      FedAvgClient.init ps uid lr sg t false =
        Except.error (t ++ " is not supported. You can specify `sgd`, `adam`, or `none`.")) ∧
    (∃ c, FedAvgClient.init ps uid lr sg t true = Except.ok c) := by
  refine ⟨⟨?_, ?_⟩, ?_, ⟨_, rfl⟩⟩
  · rintro ⟨c, hc⟩
    by_cases h1 : t = "sgd"; · exact Or.inl h1
    by_cases h2 : t = "adam"; · exact Or.inr (Or.inl h2)
    by_cases h3 : t = "none"; · exact Or.inr (Or.inr h3)
    simp [FedAvgClient.init, _setup_optimizer_for_global_grad, h1, h2, h3] at hc
  · rintro (h | h | h) <;> subst h <;> exact ⟨_, rfl⟩
  · intro h1 h2 h3
    simp [FedAvgClient.init, _setup_optimizer_for_global_grad, h1, h2, h3]

/-- C8: for every encrypted array and every operand, `sub(a, b)` is exactly
`add(a, b scaled by −1)` — subtraction is addition of the negated operand,
using only the additive homomorphism. -/
theorem claim_C8 (a : PaillierTensor) (b : Operand) :
    PaillierTensor.sub a b = PaillierTensor.add a (Operand.scaledByNegOne b) := by
  cases b <;> rfl

/-- C9: each arithmetic operation (`add`, `sub`, `mul`) on an encrypted array,
with a plaintext scalar, a shape-compatible plaintext array, or a
shape-compatible encrypted array as second operand, completes with a new
instance of the same shape (length) as the first operand, and the post-call
states of both operands are the original values — no operand is mutated. -/
theorem claim_C9 (a : PaillierTensor) (b : Operand)
    (h : Operand.compatWith b a = true) :
    (∃ r, PaillierTensor.addCall a b = Except.ok (r, a, b) ∧
        r._paillier_np_array.length = a._paillier_np_array.length) ∧
    (∃ r, PaillierTensor.subCall a b = Except.ok (r, a, b) ∧
        r._paillier_np_array.length = a._paillier_np_array.length) ∧
    (∃ r, PaillierTensor.mulCall a b = Except.ok (r, a, b) ∧
        r._paillier_np_array.length = a._paillier_np_array.length) := by
  cases b with
  | scalar x =>
      refine ⟨⟨_, rfl, ?_⟩, ⟨_, rfl, ?_⟩, ⟨_, rfl, ?_⟩⟩ <;> simp
  | tensor t =>
      have hl : a._paillier_np_array.length = t.length := by
        simpa [Operand.compatWith] using h
      refine
        ⟨⟨⟨List.zipWith (fun c v => c + v) a._paillier_np_array t⟩, ?_, ?_⟩,
         ⟨⟨List.zipWith (fun c v => c + v) a._paillier_np_array
             (t.map (fun v => -1 * v))⟩, ?_, ?_⟩,
         ⟨⟨List.zipWith (fun c v => c * v) a._paillier_np_array t⟩, ?_, ?_⟩⟩ <;>
        simp [PaillierTensor.addCall, PaillierTensor.subCall, PaillierTensor.mulCall,
          PaillierTensor.add, PaillierTensor.sub, PaillierTensor.mul, npCombine,
          Except.map, hl]
  | paillier p =>
      have hl : a._paillier_np_array.length = p._paillier_np_array.length := by
        simpa [Operand.compatWith] using h
      refine
        ⟨⟨⟨List.zipWith (fun c v => c + v) a._paillier_np_array
             p._paillier_np_array⟩, ?_, ?_⟩,
         ⟨⟨List.zipWith (fun c v => c + v) a._paillier_np_array
             (p._paillier_np_array.map (fun v => -1 * v))⟩, ?_, ?_⟩,
         ⟨⟨List.zipWith (fun c v => c * v) a._paillier_np_array
             p._paillier_np_array⟩, ?_, ?_⟩⟩ <;>
        simp [PaillierTensor.addCall, PaillierTensor.subCall, PaillierTensor.mulCall,
          PaillierTensor.add, PaillierTensor.sub, PaillierTensor.mul, npCombine,
          Except.map, hl]
  | unsupported ty =>
      simp [Operand.compatWith] at h

/-! ## Witnesses: concrete instantiations of the hypothesised theorems -/

/-- Concrete uninitialized client for the C3 witness. -/
def cFreshW : FedAvgClient :=
  { user_id := 0, params := [[0]], lr := 1, send_gradient := true,
    server_side_update := false, optimizer_for_gloal_grad := some (FLOptimizer.sgd 1),
    prev_parameters := [[0]], initialized := false }

/-- The state of `cFreshW` after its first `download [[7]]`. -/
def cFreshWDown : FedAvgClient :=
  { cFreshW with params := [[7]], prev_parameters := [[7]], initialized := true }

theorem claim_C3_witness :
    cFreshWDown.params = [[(7 : ℚ)]] ∧ cFreshWDown.initialized = true :=
  claim_C3.1 cFreshW [[7]] cFreshWDown rfl rfl

/-- Concrete server-applied-update client for the C5 and C7 witnesses. -/
def cSrvW : FedAvgClient :=
  { user_id := 0, params := [[1], [2]], lr := 1/2, send_gradient := false,
    server_side_update := true, optimizer_for_gloal_grad := none,
    prev_parameters := [[1], [2]], initialized := true }

/-- The state of `cSrvW` after `download [[3], [4]]`. -/
def cSrvWDown : FedAvgClient :=
  { cSrvW with params := [[3], [4]], prev_parameters := [[3], [4]] }

theorem claim_C5_witness : cSrvWDown.prev_parameters = cSrvWDown.params :=
  claim_C5.1 cSrvW [[3], [4]] cSrvWDown rfl

theorem claim_C7_witness :
    FedAvgClient.upload_parameters cSrvWDown = [[(3 : ℚ)], [(4 : ℚ)]] :=
  claim_C7 cSrvW [[3], [4]] cSrvWDown rfl rfl

/-- Concrete clients whose parameters have drifted from the snapshot, for the
C4 witness. -/
def cGradW : FedAvgClient :=
  { user_id := 0, params := [[1, 3]], lr := 2, send_gradient := true,
    server_side_update := true, optimizer_for_gloal_grad := none,
    prev_parameters := [[2, 5]], initialized := true }

/-- The message-passing counterpart for the C4 witness. -/
def mGradW : MPIFedAVGClient :=
  { user_id := 0, params := [[4]], lr := 2, prev_parameters := [[6]],
    gradients := none }

theorem claim_C4_witness :
    (((FedAvgClient.upload_gradients cGradW).1)[0]? =
        some (Tensor.divScalar
          (Tensor.sub (cGradW.prev_parameters.get ⟨0, by decide⟩)
            (cGradW.params.get ⟨0, by decide⟩)) cGradW.lr) ∧
      (FedAvgClient.upload_gradients cGradW).2 = cGradW) ∧
    (((MPIFedAVGClient.upload_gradient mGradW).2)[0]? =
        some (Tensor.divScalar
          (Tensor.sub (mGradW.prev_parameters.get ⟨0, by decide⟩)
            (mGradW.params.get ⟨0, by decide⟩)) mGradW.lr) ∧
      (MPIFedAVGClient.upload_gradient mGradW).1.params = mGradW.params ∧
      (MPIFedAVGClient.upload_gradient mGradW).1.prev_parameters =
        mGradW.prev_parameters) :=
  ⟨claim_C4.1 cGradW 0 (by decide) (by decide),
   claim_C4.2 mGradW 0 (by decide) (by decide)⟩

theorem claim_C6_witness :
    FedAvgClient.init [[1]] 0 1 true "bogus" false =
      Except.error ("bogus" ++ " is not supported. You can specify `sgd`, `adam`, or `none`.") ∧
    (∃ c, FedAvgClient.init [[1]] 0 1 true "bogus" true = Except.ok c) :=
  ⟨(claim_C6 [[1]] 0 1 true "bogus").2.1 (by decide) (by decide) (by decide),
   (claim_C6 [[1]] 0 1 true "bogus").2.2⟩

/-- Concrete already-initialized client with the `None` adapter, for the C10
witness. -/
def cNoneW : FedAvgClient :=
  { user_id := 0, params := [[5]], lr := 1, send_gradient := true,
    server_side_update := false, optimizer_for_gloal_grad := none,
    prev_parameters := [[5]], initialized := true }

theorem claim_C10_witness :
    FedAvgClient.download cNoneW [[2]] =
      Except.error "AttributeError: NoneType object has no attribute step" :=
  claim_C10.2.2 cNoneW [[2]] rfl rfl rfl

/-- Concrete encrypted array and plaintext-array operand for the C9 witness. -/
def ptW : PaillierTensor := ⟨[1, 2]⟩

/-- The plaintext two-element operand for the C9 witness. -/
def opW : Operand := Operand.tensor [3, 4]

theorem claim_C9_witness :
    (∃ r, PaillierTensor.addCall ptW opW = Except.ok (r, ptW, opW) ∧
        r._paillier_np_array.length = ptW._paillier_np_array.length) ∧
    (∃ r, PaillierTensor.subCall ptW opW = Except.ok (r, ptW, opW) ∧
        r._paillier_np_array.length = ptW._paillier_np_array.length) ∧
    (∃ r, PaillierTensor.mulCall ptW opW = Except.ok (r, ptW, opW) ∧
        r._paillier_np_array.length = ptW._paillier_np_array.length) :=
  claim_C9 ptW opW (by decide)

end AIJack
